import Mathlib

/-!
Verification of the student-management single-page application (`src/App.js`).

The application state and its handlers are shallowly embedded: React state
becomes an explicit `AppState` record, each handler becomes a pure function
from state to a new state paired with the list of store requests it issues,
and the Firestore snapshot callback becomes a function from the delivered
snapshot to the new state.  JavaScript strings are Lean `String`s; the
`\S+@\S+\.\S+` regular-expression test and `String.prototype.includes` are
embedded as executable character-list functions below.
-/

namespace SMS

/-- A student record as materialized from a snapshot document
(`{ id: doc.id, ...doc.data() }`). -/
structure Student where
  id : String
  name : String
  email : String
  phone : String
  studentId : String
deriving DecidableEq, Repr

/-- The field data of a student document as held in the store. -/
structure StudentData where
  name : String
  email : String
  phone : String
  studentId : String
deriving DecidableEq, Repr

/-- One document of a Firestore snapshot: its identifier and its data. -/
structure SnapshotDoc where
  id : String
  data : StudentData
deriving DecidableEq, Repr

/-- `{ id: doc.id, ...doc.data() }` (App.js line 65). -/
def materializeDoc (d : SnapshotDoc) : Student :=
  ⟨d.id, d.data.name, d.data.email, d.data.phone, d.data.studentId⟩

/-- The `currentStudent` form object.  For create mode it starts from the
empty template `{ name: '', email: '', phone: '', studentId: '' }` and has no
`id` key; `startEdit` populates it from a row, so it then carries an `id`. -/
structure FormStudent where
  id : Option String
  name : String
  email : String
  phone : String
  studentId : String
deriving DecidableEq, Repr

/-- The empty form template (App.js lines 19 and 94). -/
def emptyForm : FormStudent := ⟨none, "", "", "", ""⟩

/-- The React state of the `App` component that the claims are about. -/
structure AppState where
  students : List Student
  filteredStudents : List Student
  isModalOpen : Bool
  isEditMode : Bool
  currentStudent : FormStudent
  searchTerm : String
  isLoading : Bool
  error : Option String
deriving DecidableEq, Repr

/-- The initial `useState` values (App.js lines 15-22). -/
def initialState : AppState :=
  ⟨[], [], false, false, emptyForm, "", true, none⟩

/-- A mutation request issued to the document store. -/
inductive StoreOp where
  /-- `addDoc(studentsCollectionRef, currentStudent)` (App.js line 122). -/
  | addDoc (s : FormStudent)
  /-- `updateDoc(studentDocRef, currentStudent)` (App.js lines 134-135). -/
  | updateDoc (id : String) (s : FormStudent)
  /-- `deleteDoc(studentDocRef)` (App.js lines 147-148). -/
  | deleteDoc (id : String)
deriving DecidableEq, Repr

/-! ### String operations

`toLowerCase`, `includes` and the email regular expression, embedded over
`List Char`. -/

/-- `String.prototype.toLowerCase`, embedded as character-wise lowering. -/
def strToLower (s : String) : String :=
  ⟨s.data.map Char.toLower⟩

/-- `leadMatch pat l` holds when `pat` occurs at the very start of `l`. -/
def leadMatch : List Char → List Char → Bool
  | [], _ => true
  | _ :: _, [] => false
  | p :: ps, c :: cs => p == c && leadMatch ps cs

/-- `hasSub pat l` holds when `pat` occurs contiguously anywhere in `l`
(the empty pattern occurs in every list). -/
def hasSub (pat : List Char) : List Char → Bool
  | [] => leadMatch pat []
  | c :: cs => leadMatch pat (c :: cs) || hasSub pat cs

/-- `s.includes(pat)` for JavaScript strings. -/
def strIncludes (s pat : String) : Bool :=
  hasSub pat.data s.data

/-- The JavaScript whitespace class `\s` (so `\S` is its complement). -/
def jsSpace (c : Char) : Bool :=
  c.toNat == 32 || c.toNat == 9 || c.toNat == 10 || c.toNat == 13 ||
  c.toNat == 11 || c.toNat == 12 || c.toNat == 0xa0 || c.toNat == 0x1680 ||
  (0x2000 ≤ c.toNat && c.toNat ≤ 0x200a) ||
  c.toNat == 0x2028 || c.toNat == 0x2029 || c.toNat == 0x202f ||
  c.toNat == 0x205f || c.toNat == 0x3000 || c.toNat == 0xfeff

/-- The character at index `k` exists and is a non-space (`\S`). -/
def nonspaceAt (l : List Char) (k : Nat) : Bool :=
  match l[k]? with
  | some c => !(jsSpace c)
  | none => false

/-- `/\S+@\S+\.\S+/.test(s)` (App.js line 109).  The unanchored pattern
matches `s` exactly when there are positions `i < j` with `s[i] = '@'`,
`s[j] = '.'`, at least one character strictly between them with all such
characters non-space, a non-space character immediately before `i`, and a
non-space character immediately after `j`; the search below decides that
characterization. -/
def emailRegexTest (s : String) : Bool :=
  let l := s.data
  (List.range l.length).any fun i =>
    (List.range l.length).any fun j =>
      decide (1 ≤ i) && decide (i + 2 ≤ j) &&
      nonspaceAt l (i - 1) &&
      (l[i]? == some '@') &&
      ((List.range l.length).all fun k =>
        !(decide (i < k) && decide (k < j)) || nonspaceAt l k) &&
      (l[j]? == some '.') &&
      nonspaceAt l (j + 1)

/-! ### Search filter (App.js lines 79-87) -/

/-- The predicate of the search-filter effect (App.js lines 81-85): the term
is lowercased once; `name` and `email` are lowercased before the substring
test, while `studentId` is only converted `toString()` (identity on strings)
and compared as-is. -/
def matchesSearch (term : String) (student : Student) : Bool :=
  strIncludes (strToLower student.name) (strToLower term) ||
  strIncludes (strToLower student.email) (strToLower term) ||
  strIncludes student.studentId (strToLower term)

/-- The search-filter effect: `students.filter(...)` (App.js lines 80-86). -/
def filterStudents (term : String) (students : List Student) : List Student :=
  students.filter (matchesSearch term)

/-! ### Modal control and form handling (App.js lines 89-114) -/

/-- `closeModal` (App.js lines 91-96). -/
def closeModal (st : AppState) : AppState :=
  { st with
    isModalOpen := false
    isEditMode := false
    currentStudent := emptyForm
    error := none }

/-- `validateForm` (App.js lines 104-114): returns the state with any
validation error recorded, paired with the boolean result. -/
def validateForm (st : AppState) : AppState × Bool :=
  if st.currentStudent.name = "" ∨ st.currentStudent.email = "" ∨
      st.currentStudent.studentId = "" then
    ({ st with error := some "Name, Email, and Student ID are required." }, false)
  else if emailRegexTest st.currentStudent.email = false then
    ({ st with error := some "Please enter a valid email address." }, false)
  else
    (st, true)

/-! ### CRUD handlers (App.js lines 117-154)

Each handler returns the new state together with the list of store requests
it issued.  The `ok` parameter tells whether the awaited store request
succeeds; on failure the `catch` block records the handler's error string. -/

/-- `handleAddStudent` (App.js lines 117-128). -/
def handleAddStudent (ok : Bool) (st : AppState) : AppState × List StoreOp :=
  let v := validateForm st
  if v.2 then
    if ok then
      (closeModal v.1, [StoreOp.addDoc v.1.currentStudent])
    else
      ({ v.1 with error := some "Failed to add student. Please try again." },
        [StoreOp.addDoc v.1.currentStudent])
  else
    (v.1, [])

/-- `handleUpdateStudent` (App.js lines 130-141).  When `currentStudent`
carries no `id`, building the document reference throws inside the `try`
before any request is sent, so only the catch branch runs. -/
def handleUpdateStudent (ok : Bool) (st : AppState) : AppState × List StoreOp :=
  let v := validateForm st
  if v.2 then
    match v.1.currentStudent.id with
    | none =>
      ({ v.1 with error := some "Failed to update student. Please try again." }, [])
    | some i =>
      if ok then
        (closeModal v.1, [StoreOp.updateDoc i v.1.currentStudent])
      else
        ({ v.1 with error := some "Failed to update student. Please try again." },
          [StoreOp.updateDoc i v.1.currentStudent])
  else
    (v.1, [])

/-- The confirmation environment for `handleDeleteStudent`:
`window.customConfirm` is either absent (`none`) or present and answering
`some b`.  The guard on App.js line 145 evaluates to `true` when the
function is absent. -/
def confirmGranted (customConfirm : Option Bool) : Bool :=
  match customConfirm with
  | none => true
  | some b => b

/-- `handleDeleteStudent` (App.js lines 143-154). -/
def handleDeleteStudent (customConfirm : Option Bool) (ok : Bool) (id : String)
    (st : AppState) : AppState × List StoreOp :=
  if confirmGranted customConfirm then
    if ok then
      (st, [StoreOp.deleteDoc id])
    else
      ({ st with error := some "Failed to delete student. Please try again." },
        [StoreOp.deleteDoc id])
  else
    (st, [])

/-! ### Snapshot subscription (App.js lines 64-72) -/

/-- The `onSnapshot` success callback: replaces the whole list with the
snapshot's materialized documents. -/
def onSnapshotNext (docs : List SnapshotDoc) (st : AppState) : AppState :=
  { st with
    students := docs.map materializeDoc
    isLoading := false }

/-! ### Records with possibly-missing fields (claim C9)

A snapshot document need not carry every field; the filter predicate then
calls a method on an absent value.  `rawMatch` evaluates the predicate of
App.js lines 81-85 with JavaScript's left-to-right short-circuit `||`,
returning `none` where the original throws a `TypeError`. -/

/-- A record whose fields may be absent. -/
structure RawStudent where
  name : Option String
  email : Option String
  phone : Option String
  studentId : Option String
deriving DecidableEq, Repr

/-- One evaluation of the filter predicate on a possibly-partial record:
`none` marks the `TypeError` raised by calling a method on an absent
field; short-circuiting follows the source's `||` order. -/
def rawMatch (term : String) (s : RawStudent) : Option Bool :=
  match s.name with
  | none => none
  | some nm =>
    if strIncludes (strToLower nm) (strToLower term) then some true
    else
      match s.email with
      | none => none
      | some em =>
        if strIncludes (strToLower em) (strToLower term) then some true
        else
          match s.studentId with
          | none => none
          | some sid => some (strIncludes sid (strToLower term))

/-- `Array.prototype.filter` over possibly-partial records: the predicate is
evaluated element by element in order and the first `TypeError` aborts the
whole filter. -/
def rawFilter (term : String) : List RawStudent → Option (List RawStudent)
  | [] => some []
  | s :: rest =>
    match rawMatch term s with
    | none => none
    | some b =>
      match rawFilter term rest with
      | none => none
      | some l => if b then some (s :: l) else some l

/-! ### Helper lemmas -/

/-- The empty pattern occurs in every character list. -/
theorem hasSub_nil (l : List Char) : hasSub [] l = true := by
  cases l <;> rfl

/-- `validateForm` never changes the record list. -/
theorem validateForm_students (st : AppState) :
    (validateForm st).1.students = st.students := by
  unfold validateForm
  split_ifs <;> rfl

/-- `validateForm` never changes the in-edit record. -/
theorem validateForm_currentStudent (st : AppState) :
    (validateForm st).1.currentStudent = st.currentStudent := by
  unfold validateForm
  split_ifs <;> rfl

/-- `closeModal` never changes the record list. -/
theorem closeModal_students (st : AppState) :
    (closeModal st).students = st.students := rfl

/-- A record with all three searched fields present never raises. -/
theorem rawMatch_isSome_of_fields (term : String) (s : RawStudent)
    (h1 : s.name ≠ none) (h2 : s.email ≠ none) (h3 : s.studentId ≠ none) :
    (rawMatch term s).isSome = true := by
  obtain ⟨nm, hn⟩ := Option.ne_none_iff_exists'.mp h1
  obtain ⟨em, he⟩ := Option.ne_none_iff_exists'.mp h2
  obtain ⟨sid, hs⟩ := Option.ne_none_iff_exists'.mp h3
  simp only [rawMatch, hn, he, hs]
  split_ifs <;> rfl

/-- A record with `name` absent raises on its very first field access. -/
theorem rawMatch_none_of_name_none (term : String) (s : RawStudent)
    (h : s.name = none) : rawMatch term s = none := by
  simp [rawMatch, h]

/-- When every record has all three searched fields, filtering is total. -/
theorem rawFilter_isSome_of (term : String) :
    ∀ l : List RawStudent,
      (∀ r ∈ l, r.name ≠ none ∧ r.email ≠ none ∧ r.studentId ≠ none) →
      (rawFilter term l).isSome = true
  | [], _ => rfl
  | s :: rest, h => by
    have hs := h s (List.mem_cons_self s rest)
    have hm := rawMatch_isSome_of_fields term s hs.1 hs.2.1 hs.2.2
    have ih := rawFilter_isSome_of term rest
      (fun r hr => h r (List.mem_cons_of_mem _ hr))
    cases hmm : rawMatch term s with
    | none => rw [hmm] at hm; exact absurd hm (by simp)
    | some b =>
      cases hrr : rawFilter term rest with
      | none => rw [hrr] at ih; exact absurd ih (by simp)
      | some l' =>
        cases b <;> simp [rawFilter, hmm, hrr]

/-- A record with `name` absent anywhere in the list aborts the filter. -/
theorem rawFilter_none_of (term : String) :
    ∀ l : List RawStudent, (∃ r ∈ l, r.name = none) →
      rawFilter term l = none
  | [], h => by simp at h
  | s :: rest, h => by
    rcases h with ⟨r, hr, hname⟩
    rcases List.mem_cons.mp hr with rfl | hmem
    · simp [rawFilter, rawMatch_none_of_name_none term _ hname]
    · have ih := rawFilter_none_of term rest ⟨r, hmem, hname⟩
      cases hm : rawMatch term s <;> simp [rawFilter, hm, ih]

/-- A record whose present `name` already matches the term is accepted
without ever touching its other fields. -/
theorem rawMatch_some_true_of_name (term : String) (s : RawStudent)
    (nm : String) (h : s.name = some nm)
    (hm : strIncludes (strToLower nm) (strToLower term) = true) :
    rawMatch term s = some true := by
  simp [rawMatch, h, hm]

/-! ### Claim-side predicates (for refinement comparisons) -/

/-- The filter predicate as the specification words it: the term is a
case-insensitive substring of the name, the email, or the studentId, i.e.
all three fields are lowercased before the comparison. -/
def claimMatches (term : String) (student : Student) : Bool :=
  strIncludes (strToLower student.name) (strToLower term) ||
  strIncludes (strToLower student.email) (strToLower term) ||
  strIncludes (strToLower student.studentId) (strToLower term)

/-- The filter predicate of the amended claim: the lowercased term is a
substring of the lowercased name, of the lowercased email, or of the
verbatim (not lowercased) studentId. -/
def amendedMatches (term : String) (student : Student) : Bool :=
  strIncludes (strToLower student.name) (strToLower term) ||
  strIncludes (strToLower student.email) (strToLower term) ||
  strIncludes student.studentId (strToLower term)

/-! ### Concrete states used by witnesses -/

/-- A modal-open state whose form has an empty name (the spec scenario
`{name: "", email: "a@b.com", studentId: "S1"}`). -/
def wEmptyName : AppState :=
  ⟨[], [], true, false, ⟨none, "", "a@b.com", "", "S1"⟩, "", false, none⟩

/-- A modal-open state whose form has a malformed email (the spec scenario
`{name: "Bo", email: "not-an-email", studentId: "S2"}`). -/
def wBadEmail : AppState :=
  ⟨[], [], true, false, ⟨some "7", "Bo", "not-an-email", "", "S2"⟩, "", false, none⟩

/-- A state whose form violates both validation rules at once: empty name
and a malformed non-empty email. -/
def wBothBad : AppState :=
  ⟨[], [], true, false, ⟨none, "", "nope", "", "S3"⟩, "", false, none⟩

/-- A partial record with every searched field present. -/
def rawAll : RawStudent := ⟨some "x", some "y", some "z", some "w"⟩

/-- A partial record with `name` absent. -/
def rawNoName : RawStudent := ⟨none, some "y", some "z", some "w"⟩

/-- A partial record carrying only a `name`, which matches the term `"q"`. -/
def rawNameOnly : RawStudent := ⟨some "qa", none, none, none⟩

/-! ### The claims -/

/-- Claim C1, counterexample: the claim says the term is matched
case-insensitively against the studentId as well, but the source lowercases
only the term (App.js line 84), so the record with studentId `"S"` is
dropped by the code although the claim's case-insensitive filter keeps it. -/
theorem filterStudents_claim_counterexample :
    filterStudents "s" [⟨"1", "", "", "", "S"⟩] = [] ∧
    List.filter (claimMatches "s") [⟨"1", "", "", "", "S"⟩] =
      [⟨"1", "", "", "", "S"⟩] := by
  decide

/-- Claim C1, amended: for every record list and term, the filter returns
exactly the in-order subsequence of records whose lowercased name or
lowercased email contains the lowercased term, or whose verbatim studentId
contains the lowercased term (studentId is matched case-sensitively). -/
theorem filterStudents_eq_amended (term : String) (l : List Student) :
    filterStudents term l = l.filter (amendedMatches term) ∧
    List.Sublist (filterStudents term l) l :=
  ⟨rfl, List.filter_sublist l⟩

/-- Claim C2: submitting create or update with name, email, or studentId
empty issues no store request and sets the required-fields error. -/
theorem empty_required_field_blocks_store (ok : Bool) (st : AppState)
    (h : st.currentStudent.name = "" ∨ st.currentStudent.email = "" ∨
      st.currentStudent.studentId = "") :
    (handleAddStudent ok st).2 = [] ∧
    (handleAddStudent ok st).1.error =
      some "Name, Email, and Student ID are required." ∧
    (handleUpdateStudent ok st).2 = [] ∧
    (handleUpdateStudent ok st).1.error =
      some "Name, Email, and Student ID are required." := by
  have hv : validateForm st =
      ({ st with error := some "Name, Email, and Student ID are required." },
        false) := by
    unfold validateForm
    rw [if_pos h]
  refine ⟨?_, ?_, ?_, ?_⟩ <;> simp [handleAddStudent, handleUpdateStudent, hv]

/-- Witness for claim C2 at the spec's concrete scenario. -/
theorem empty_required_field_blocks_store_witness :
    (wEmptyName.currentStudent.name = "" ∨
      wEmptyName.currentStudent.email = "" ∨
      wEmptyName.currentStudent.studentId = "") ∧
    ((handleAddStudent true wEmptyName).2 = [] ∧
    (handleAddStudent true wEmptyName).1.error =
      some "Name, Email, and Student ID are required." ∧
    (handleUpdateStudent true wEmptyName).2 = [] ∧
    (handleUpdateStudent true wEmptyName).1.error =
      some "Name, Email, and Student ID are required.") :=
  ⟨Or.inl rfl, empty_required_field_blocks_store true wEmptyName (Or.inl rfl)⟩

/-- Claim C3: submitting create or update with all required fields
non-empty but an email that the pattern rejects issues no store request and
sets the email-format error. -/
theorem invalid_email_blocks_store (ok : Bool) (st : AppState)
    (h1 : ¬ st.currentStudent.name = "")
    (h2 : ¬ st.currentStudent.email = "")
    (h3 : ¬ st.currentStudent.studentId = "")
    (h4 : emailRegexTest st.currentStudent.email = false) :
    (handleAddStudent ok st).2 = [] ∧
    (handleAddStudent ok st).1.error =
      some "Please enter a valid email address." ∧
    (handleUpdateStudent ok st).2 = [] ∧
    (handleUpdateStudent ok st).1.error =
      some "Please enter a valid email address." := by
  have hv : validateForm st =
      ({ st with error := some "Please enter a valid email address." },
        false) := by
    unfold validateForm
    rw [if_neg (fun h => h.elim h1 (fun h => h.elim h2 h3)), if_pos h4]
  refine ⟨?_, ?_, ?_, ?_⟩ <;> simp [handleAddStudent, handleUpdateStudent, hv]

/-- Witness for claim C3 at the spec's concrete scenario. -/
theorem invalid_email_blocks_store_witness :
    (¬ wBadEmail.currentStudent.name = "" ∧
      ¬ wBadEmail.currentStudent.email = "" ∧
      ¬ wBadEmail.currentStudent.studentId = "" ∧
      emailRegexTest wBadEmail.currentStudent.email = false) ∧
    ((handleAddStudent true wBadEmail).2 = [] ∧
    (handleAddStudent true wBadEmail).1.error =
      some "Please enter a valid email address." ∧
    (handleUpdateStudent true wBadEmail).2 = [] ∧
    (handleUpdateStudent true wBadEmail).1.error =
      some "Please enter a valid email address.") :=
  ⟨⟨by decide, by decide, by decide, by decide⟩,
    invalid_email_blocks_store true wBadEmail
      (by decide) (by decide) (by decide) (by decide)⟩

/-- Claim C4: the claim says removal is dispatched only after an explicit
confirmation step grants it, and the repository's README promises "a
confirmation step to prevent accidental deletions"; but when
`window.customConfirm` is absent — and no code in the repository installs
it — the guard on App.js line 145 falls through to `true` and the deletion
request is dispatched with no confirmation at all.  Declining an installed
confirmation does leave the record untouched. -/
theorem delete_without_confirm_dispatches :
    (handleDeleteStudent none true "1" initialState).2 =
      [StoreOp.deleteDoc "1"] ∧
    handleDeleteStudent (some false) true "1" initialState =
      (initialState, []) := by
  decide

/-- Claim C5: after each snapshot notification the record list equals the
freshly materialized snapshot documents in remote order, independently of
the list's previous contents. -/
theorem snapshot_replaces_students (docs : List SnapshotDoc)
    (st st' : AppState) :
    (onSnapshotNext docs st).students = docs.map materializeDoc ∧
    (onSnapshotNext docs st).students = (onSnapshotNext docs st').students :=
  ⟨rfl, rfl⟩

/-- Claim C6: filtering with the empty search term is the identity on the
record list. -/
theorem filterStudents_empty_term (l : List Student) :
    filterStudents "" l = l := by
  unfold filterStudents
  refine List.filter_eq_self.mpr fun s _ => ?_
  unfold matchesSearch
  rw [show strIncludes (strToLower s.name) (strToLower "") = true from
    hasSub_nil _, Bool.true_or, Bool.true_or]

/-- Claim C7: closing the modal resets the in-edit record to the empty
template, leaves edit mode, clears the error, closes the modal, and touches
nothing else. -/
theorem closeModal_resets (st : AppState) :
    (closeModal st).currentStudent = emptyForm ∧
    (closeModal st).isEditMode = false ∧
    (closeModal st).error = none ∧
    (closeModal st).isModalOpen = false ∧
    (closeModal st).students = st.students ∧
    (closeModal st).filteredStudents = st.filteredStudents ∧
    (closeModal st).searchTerm = st.searchTerm ∧
    (closeModal st).isLoading = st.isLoading :=
  ⟨rfl, rfl, rfl, rfl, rfl, rfl, rfl, rfl⟩

/-- Claim C8: no create, update, or delete handler ever writes the record
list — in every branch (validation failure, store success, store failure,
confirmation granted or declined) `students` is untouched. -/
theorem handlers_never_write_students (ok : Bool) (cc : Option Bool)
    (id : String) (st : AppState) :
    (handleAddStudent ok st).1.students = st.students ∧
    (handleUpdateStudent ok st).1.students = st.students ∧
    (handleDeleteStudent cc ok id st).1.students = st.students := by
  refine ⟨?_, ?_, ?_⟩
  · unfold handleAddStudent
    cases hv : (validateForm st).2 <;> cases ok <;>
      simp [hv, closeModal_students, validateForm_students]
  · unfold handleUpdateStudent
    cases hv : (validateForm st).2 <;>
      cases hid : (validateForm st).1.currentStudent.id <;> cases ok <;>
      simp [hv, hid, closeModal_students, validateForm_students]
  · unfold handleDeleteStudent
    cases hc : confirmGranted cc <;> cases ok <;> simp [hc]

/-- Claim C9, counterexample: the claim says a record missing any of the
three searched fields makes filtering fail, but short-circuit `||` means a
record whose present name already matches the term is returned without its
absent email and studentId ever being touched. -/
theorem missing_fields_need_not_fail :
    RawStudent.email ⟨some "a", none, none, none⟩ = none ∧
    rawFilter "a" [⟨some "a", none, none, none⟩] =
      some [⟨some "a", none, none, none⟩] := by
  decide

/-- Claim C9, amended: filtering is total when every record carries all
three searched fields; a record with `name` absent always aborts the
filter; but a record whose present name matches the term is accepted
without evaluating its (possibly absent) email or studentId. -/
theorem rawFilter_short_circuit (term : String) (l : List RawStudent)
    (s : RawStudent) (nm : String) :
    ((∀ r ∈ l, r.name ≠ none ∧ r.email ≠ none ∧ r.studentId ≠ none) →
      (rawFilter term l).isSome = true) ∧
    ((∃ r ∈ l, r.name = none) → rawFilter term l = none) ∧
    (s.name = some nm →
      strIncludes (strToLower nm) (strToLower term) = true →
      rawMatch term s = some true) :=
  ⟨rawFilter_isSome_of term l, rawFilter_none_of term l,
    rawMatch_some_true_of_name term s nm⟩

/-- Witness for the amended claim C9 at concrete records. -/
theorem rawFilter_short_circuit_witness :
    (rawFilter "q" [rawAll]).isSome = true ∧
    rawFilter "q" [rawNoName] = none ∧
    rawMatch "q" rawNameOnly = some true :=
  ⟨(rawFilter_short_circuit "q" [rawAll] rawNameOnly "qa").1 (by decide),
    (rawFilter_short_circuit "q" [rawNoName] rawNameOnly "qa").2.1 (by decide),
    (rawFilter_short_circuit "q" [rawNameOnly] rawNameOnly "qa").2.2
      rfl (by decide)⟩

/-- Claim C10: when a submission violates both validation rules at once,
the required-fields check runs first, so the recorded error is the
required-fields message, never the email-format one. -/
theorem required_check_wins (st : AppState)
    (h : st.currentStudent.name = "" ∨ st.currentStudent.email = "" ∨
      st.currentStudent.studentId = "")
    (h2 : emailRegexTest st.currentStudent.email = false) :
    (validateForm st).1.error =
      some "Name, Email, and Student ID are required." ∧
    (validateForm st).2 = false := by
  unfold validateForm
  rw [if_pos h]
  exact ⟨rfl, rfl⟩

/-- Witness for claim C10 at a doubly-invalid concrete form. -/
theorem required_check_wins_witness :
    ((wBothBad.currentStudent.name = "" ∨
      wBothBad.currentStudent.email = "" ∨
      wBothBad.currentStudent.studentId = "") ∧
      emailRegexTest wBothBad.currentStudent.email = false) ∧
    ((validateForm wBothBad).1.error =
      some "Name, Email, and Student ID are required." ∧
    (validateForm wBothBad).2 = false) :=
  ⟨⟨Or.inl rfl, by decide⟩,
    required_check_wins wBothBad (Or.inl rfl) (by decide)⟩

end SMS
